import Mathlib

/-!
# Verification of `src/_terminal-utils.ts` (ccusage terminal utilities)

Shallow embedding of the repository's terminal utilities:
* `TerminalManager` — the stateful terminal wrapper, modelled as a state
  machine over an abstract output trace (one trace item per escape sequence
  or text write sent to the sink);
* `createProgressBar` — the progress-bar formatter, over `ℚ` (idealising the
  JavaScript numbers) with JavaScript `Math.round`/`Math.min` semantics and a
  fallible `String.repeat` (JavaScript's `repeat` throws `RangeError` on a
  negative count, modelled by `Option`);
* `centerText` — the centering formatter, with the display-width function of
  the external `string-width` dependency modelled per the spec's capability
  contract (per-character column widths: zero, one or two).
-/

/-- One item of output sent to the sink.  The concrete escape-sequence bytes
come from the external `ansi-escapes` dependency (`TERMINAL_CONTROL` table);
the claims only depend on which sequence is emitted, so the trace is kept
abstract. -/
inductive OutItem where
  | hideSeq : OutItem
  | showSeq : OutItem
  | clearScreenSeq : OutItem
  | moveToTopSeq : OutItem
  | eraseLineSeq : OutItem
  | moveUpSeq : Int → OutItem
  | moveToColumnSeq : Int → OutItem
  | text : String → OutItem
  deriving DecidableEq, Repr

/-- State of a `TerminalManager`: the sink's (fixed) `isTTY` flag, the
`cursorHidden` boolean, and the trace of everything written to the sink. -/
structure TerminalManager where
  tty : Bool
  cursorHidden : Bool
  out : List OutItem
  deriving DecidableEq, Repr

namespace TerminalManager

/-- `new TerminalManager(stream)`: `cursorHidden = false`, nothing written. -/
def init (tty : Bool) : TerminalManager :=
  { tty := tty, cursorHidden := false, out := [] }

/-- `this.stream.write(o)`: append one item to the sink trace. -/
def emit (s : TerminalManager) (o : OutItem) : TerminalManager :=
  { s with out := s.out ++ [o] }

/-- `hideCursor()`: `if (!this.cursorHidden && this.stream.isTTY) { write(HIDE_CURSOR); cursorHidden = true }`. -/
def hideCursor (s : TerminalManager) : TerminalManager :=
  if !s.cursorHidden && s.tty then
    { s with out := s.out ++ [OutItem.hideSeq], cursorHidden := true }
  else s

/-- `showCursor()`: `if (this.cursorHidden && this.stream.isTTY) { write(SHOW_CURSOR); cursorHidden = false }`. -/
def showCursor (s : TerminalManager) : TerminalManager :=
  if s.cursorHidden && s.tty then
    { s with out := s.out ++ [OutItem.showSeq], cursorHidden := false }
  else s

/-- `clearScreen()`: `if (isTTY) { write(CLEAR_SCREEN); write(MOVE_TO_TOP) }`. -/
def clearScreen (s : TerminalManager) : TerminalManager :=
  if s.tty then emit (emit s OutItem.clearScreenSeq) OutItem.moveToTopSeq else s

/-- `clearLine()`: `if (isTTY) { write(CLEAR_LINE) }`. -/
def clearLine (s : TerminalManager) : TerminalManager :=
  if s.tty then emit s OutItem.eraseLineSeq else s

/-- `moveUp(lines)`: `if (isTTY && lines > 0) { write(MOVE_UP(lines)) }`. -/
def moveUp (lines : Int) (s : TerminalManager) : TerminalManager :=
  if s.tty && lines > 0 then emit s (OutItem.moveUpSeq lines) else s

/-- `moveToLineStart()`: `if (isTTY) { write(MOVE_TO_COLUMN(1)) }`;
`MOVE_TO_COLUMN(n)` is `cursorTo(n - 1, undefined)`, so the wire argument is `0`. -/
def moveToLineStart (s : TerminalManager) : TerminalManager :=
  if s.tty then emit s (OutItem.moveToColumnSeq (1 - 1)) else s

/-- `write(text)`: unconditional `this.stream.write(text)`. -/
def write (t : String) (s : TerminalManager) : TerminalManager :=
  emit s (OutItem.text t)

/-- `cleanup()`: `this.showCursor()`. -/
def cleanup (s : TerminalManager) : TerminalManager :=
  showCursor s

end TerminalManager

/-- A hide/show call, for quantifying over prior call sequences. -/
inductive CursorOp where
  | hideOp : CursorOp
  | showOp : CursorOp
  deriving DecidableEq, Repr

/-- Apply one hide/show call. -/
def applyCursorOp (s : TerminalManager) (op : CursorOp) : TerminalManager :=
  match op with
  | CursorOp.hideOp => TerminalManager.hideCursor s
  | CursorOp.showOp => TerminalManager.showCursor s

/-- Run a sequence of hide/show calls on a fresh manager bound to a sink with
the given `isTTY` flag. -/
def runCursorOps (tty : Bool) (ops : List CursorOp) : TerminalManager :=
  ops.foldl applyCursorOp (TerminalManager.init tty)

/-- Number of hide-cursor sequences in a trace. -/
def countHide (l : List OutItem) : Nat :=
  l.countP (fun o => o = OutItem.hideSeq)

/-- Number of show-cursor sequences in a trace. -/
def countShow (l : List OutItem) : Nat :=
  l.countP (fun o => o = OutItem.showSeq)

/-- Every method of `TerminalManager`, for stating whole-class invariants. -/
inductive TMOp where
  | hideCursorOp : TMOp
  | showCursorOp : TMOp
  | clearScreenOp : TMOp
  | clearLineOp : TMOp
  | moveUpOp : Int → TMOp
  | moveToLineStartOp : TMOp
  | writeOp : String → TMOp
  | cleanupOp : TMOp

/-- Apply one `TerminalManager` method. -/
def applyTMOp (s : TerminalManager) (op : TMOp) : TerminalManager :=
  match op with
  | TMOp.hideCursorOp => TerminalManager.hideCursor s
  | TMOp.showCursorOp => TerminalManager.showCursor s
  | TMOp.clearScreenOp => TerminalManager.clearScreen s
  | TMOp.clearLineOp => TerminalManager.clearLine s
  | TMOp.moveUpOp n => TerminalManager.moveUp n s
  | TMOp.moveToLineStartOp => TerminalManager.moveToLineStart s
  | TMOp.writeOp t => TerminalManager.write t s
  | TMOp.cleanupOp => TerminalManager.cleanup s

/-- Run a sequence of methods on a fresh manager. -/
def runTMOps (tty : Bool) (ops : List TMOp) : TerminalManager :=
  ops.foldl applyTMOp (TerminalManager.init tty)

/-! ## Progress bar formatter (`createProgressBar`) -/

/-- JavaScript `Math.round(x)` on the rational idealisation of JS numbers:
⌊x + 1/2⌋ (half-way cases round toward +∞, matching `Math.round`). -/
def jsRound (q : ℚ) : Int := ⌊q + 1/2⌋

/-- `n` concatenated copies of `s`. -/
def jsRepeatNat (s : String) : Nat → String
  | 0 => ""
  | n + 1 => s ++ jsRepeatNat s n

/-- JavaScript `String.prototype.repeat(n)`: throws a `RangeError` when the
(integer) count is negative, modelled by `none`. -/
def jsRepeat (s : String) (n : Int) : Option String :=
  if n < 0 then none else some (jsRepeatNat s n.toNat)

/-- JavaScript `x.toFixed(1)` on the rational idealisation: round `x·10` to
the nearest integer, larger of the two in a tie (the ECMAScript `ToFixed`
rule), and print `intPart.digit`.  (The nuance that JS prints `-0.0` for tiny
negative inputs is not modelled; no claim depends on it.) -/
def toFixed1 (q : ℚ) : String :=
  let n : Int := ⌊q * 10 + 1/2⌋
  (if n < 0 then "-" else "") ++ toString (n.natAbs / 10) ++ "." ++ toString (n.natAbs % 10)

/-- JavaScript template interpolation of a number, used only to render
`value`/`max` in the `(value/max)` suffix.  At integers — the only points any
claim evaluates it — it agrees with JavaScript (plain decimal, `-` sign); the
non-integer branch is a placeholder never reached by a claim. -/
def jsNumToString (q : ℚ) : String :=
  if q.den = 1 then toString q.num else toString q.num ++ "/" ++ toString q.den

/-- The optional `colors` record of `createProgressBar`; a `none` field is an
absent (`== null`) tier. -/
structure ProgressColors where
  low : Option String := none
  medium : Option String := none
  high : Option String := none
  critical : Option String := none
  deriving DecidableEq, Repr

/-- The options record of `createProgressBar`, with the source's defaults. -/
structure ProgressOptions where
  showPercentage : Bool := true
  showValues : Bool := false
  fillChar : String := "█"
  emptyChar : String := "░"
  leftBracket : String := "["
  rightBracket : String := "]"
  colors : ProgressColors := {}
  deriving DecidableEq, Repr

/-- `const percentage = max > 0 ? Math.min(100, (value / max) * 100) : 0`. -/
def progressPercentage (value mx : ℚ) : ℚ :=
  if mx > 0 then min 100 ((value / mx) * 100) else 0

/-- The `let color` cascade of `createProgressBar` (lines 184–196): first
tier, checked high to low, that is present (`!= null`) and whose threshold is
met; the initial value `''` when no branch fires. -/
def pickColor (colors : ProgressColors) (percentage : ℚ) : String :=
  if colors.critical.isSome ∧ percentage ≥ 90 then colors.critical.getD ""
  else if colors.high.isSome ∧ percentage ≥ 80 then colors.high.getD ""
  else if colors.medium.isSome ∧ percentage ≥ 50 then colors.medium.getD ""
  else if colors.low.isSome then colors.low.getD ""
  else ""

/-- The ANSI color-reset sequence appended by the source (`\u001B[0m`). -/
def colorReset : String := "\x1B[0m"

/-- The bar-assembly block of `createProgressBar` (lines 198–208): brackets,
optional color, fill cells, empty cells, optional reset. -/
def renderBar (opts : ProgressOptions) (color fills empties : String) : String :=
  opts.leftBracket
    ++ (if color ≠ "" then color else "")
    ++ fills ++ empties
    ++ (if color ≠ "" then colorReset else "")
    ++ opts.rightBracket

/-- `createProgressBar(value, max, width, options)`.  `value` and `max` are
JS numbers (idealised as `ℚ`); `width` is an integer cell count (the claims
restrict to integers; JS `repeat` would truncate a fractional total).  The
result is `none` exactly when the source would throw, i.e. when one of the
two `repeat` calls receives a negative count. -/
def createProgressBar (value mx : ℚ) (width : Int)
    (options : ProgressOptions := {}) : Option String := do
  let percentage := progressPercentage value mx
  let fillWidth := jsRound ((percentage / 100) * width)
  let emptyWidth := width - fillWidth
  let color := pickColor options.colors percentage
  let fills ← jsRepeat options.fillChar fillWidth
  let empties ← jsRepeat options.emptyChar emptyWidth
  let bar := renderBar options color fills empties
  let bar := if options.showPercentage then bar ++ " " ++ toFixed1 percentage ++ "%" else bar
  let bar := if options.showValues
    then bar ++ " (" ++ jsNumToString value ++ "/" ++ jsNumToString mx ++ ")"
    else bar
  pure bar

/-! ## Text centering formatter (`centerText`) -/

/-- Modelled from the spec: the display-width of one character for the
external `string-width` dependency (its source is not in the repository).
Per the spec's capability contract a character occupies zero, one or two
terminal columns: zero for zero-width/combining marks, two for East-Asian
wide ranges, one otherwise. -/
def charWidth (c : Char) : Nat :=
  if c.val = 0x200B ∨ (0x300 ≤ c.val ∧ c.val ≤ 0x36F) then 0
  else if (0x1100 ≤ c.val ∧ c.val ≤ 0x115F) ∨ (0x2E80 ≤ c.val ∧ c.val ≤ 0xA4CF)
      ∨ (0xAC00 ≤ c.val ∧ c.val ≤ 0xD7A3) ∨ (0xF900 ≤ c.val ∧ c.val ≤ 0xFAFF)
      ∨ (0xFF00 ≤ c.val ∧ c.val ≤ 0xFF60) ∨ (0x20000 ≤ c.val ∧ c.val ≤ 0x3FFFD) then 2
  else 1

/-- Modelled from the spec: `stringWidth(text)` — the number of terminal
columns the string occupies, the sum of its characters' widths. -/
def stringWidth (s : String) : Nat :=
  (s.data.map charWidth).sum

/-- `centerText(text, width)` (lines 227–237).  `width` is a JS number; the
claims restrict it to integers.  In the padding branch `width − textLength`
is positive, so Lean's integer division agrees with `Math.floor` there. -/
def centerText (text : String) (width : Int) : String :=
  let textLength : Int := stringWidth text
  if textLength ≥ width then text
  else
    let leftPadding : Int := (width - textLength) / 2
    let rightPadding : Int := width - textLength - leftPadding
    jsRepeatNat " " leftPadding.toNat ++ text ++ jsRepeatNat " " rightPadding.toNat

/-! ## Helper lemmas: cursor state machine -/

theorem countHide_append (l1 l2 : List OutItem) :
    countHide (l1 ++ l2) = countHide l1 + countHide l2 :=
  List.countP_append ..

theorem countShow_append (l1 l2 : List OutItem) :
    countShow (l1 ++ l2) = countShow l1 + countShow l2 :=
  List.countP_append ..

/-- The invariant maintained by hide/show sequences on a fixed-TTY sink:
the sink flag is unchanged, a hidden cursor implies a TTY sink, and the
trace holds exactly one unmatched hide sequence iff the cursor is hidden. -/
def CursorInv (tty : Bool) (s : TerminalManager) : Prop :=
  s.tty = tty ∧ (s.cursorHidden = true → s.tty = true) ∧
  countHide s.out = countShow s.out + (if s.cursorHidden then 1 else 0)

theorem cursorInv_init (tty : Bool) : CursorInv tty (TerminalManager.init tty) := by
  refine ⟨rfl, by simp [TerminalManager.init], ?_⟩
  simp [TerminalManager.init, countHide, countShow]

theorem cursorInv_step (tty : Bool) (op : CursorOp) (s : TerminalManager)
    (h : CursorInv tty s) : CursorInv tty (applyCursorOp s op) := by
  obtain ⟨h1, h2, h3⟩ := h
  have e1 : countHide [OutItem.hideSeq] = 1 := by decide
  have e2 : countShow [OutItem.hideSeq] = 0 := by decide
  have e3 : countHide [OutItem.showSeq] = 0 := by decide
  have e4 : countShow [OutItem.showSeq] = 1 := by decide
  cases op with
  | hideOp =>
    simp only [applyCursorOp, TerminalManager.hideCursor]
    split
    case isTrue hc =>
      simp only [Bool.and_eq_true, Bool.not_eq_true'] at hc
      refine ⟨h1, fun _ => hc.2, ?_⟩
      rw [hc.1] at h3
      simp at h3
      simp only [countHide_append, countShow_append, e1, e2]
      simp
      omega
    case isFalse => exact ⟨h1, h2, h3⟩
  | showOp =>
    simp only [applyCursorOp, TerminalManager.showCursor]
    split
    case isTrue hc =>
      simp only [Bool.and_eq_true] at hc
      refine ⟨h1, by simp, ?_⟩
      rw [hc.1] at h3
      simp at h3
      simp only [countHide_append, countShow_append, e3, e4]
      simp
      omega
    case isFalse => exact ⟨h1, h2, h3⟩

theorem cursorInv_foldl (tty : Bool) (ops : List CursorOp) (s : TerminalManager)
    (h : CursorInv tty s) : CursorInv tty (ops.foldl applyCursorOp s) := by
  induction ops generalizing s with
  | nil => exact h
  | cons op rest ih => exact ih _ (cursorInv_step tty op s h)

theorem cursorInv_run (tty : Bool) (ops : List CursorOp) :
    CursorInv tty (runCursorOps tty ops) :=
  cursorInv_foldl tty ops _ (cursorInv_init tty)

/-- The invariant of C9: a hidden cursor implies a TTY sink. -/
def HiddenImpliesTTY (s : TerminalManager) : Prop :=
  s.cursorHidden = true → s.tty = true

theorem applyTMOp_tty (s : TerminalManager) (op : TMOp) : (applyTMOp s op).tty = s.tty := by
  cases op <;>
    simp only [applyTMOp, TerminalManager.hideCursor, TerminalManager.showCursor,
      TerminalManager.clearScreen, TerminalManager.clearLine, TerminalManager.moveUp,
      TerminalManager.moveToLineStart, TerminalManager.write, TerminalManager.cleanup,
      TerminalManager.emit] <;>
    split <;> rfl

theorem hiddenImpliesTTY_step (s : TerminalManager) (op : TMOp)
    (h : HiddenImpliesTTY s) : HiddenImpliesTTY (applyTMOp s op) := by
  cases op with
  | hideCursorOp =>
    simp only [HiddenImpliesTTY, applyTMOp, TerminalManager.hideCursor]
    split
    case isTrue hc =>
      simp only [Bool.and_eq_true, Bool.not_eq_true'] at hc
      exact fun _ => hc.2
    case isFalse => exact h
  | showCursorOp =>
    simp only [HiddenImpliesTTY, applyTMOp, TerminalManager.showCursor]
    split
    case isTrue => simp
    case isFalse => exact h
  | cleanupOp =>
    simp only [HiddenImpliesTTY, applyTMOp, TerminalManager.cleanup,
      TerminalManager.showCursor]
    split
    case isTrue => simp
    case isFalse => exact h
  | clearScreenOp =>
    simp only [HiddenImpliesTTY, applyTMOp, TerminalManager.clearScreen,
      TerminalManager.emit]
    split <;> exact h
  | clearLineOp =>
    simp only [HiddenImpliesTTY, applyTMOp, TerminalManager.clearLine,
      TerminalManager.emit]
    split <;> exact h
  | moveUpOp n =>
    simp only [HiddenImpliesTTY, applyTMOp, TerminalManager.moveUp,
      TerminalManager.emit]
    split <;> exact h
  | moveToLineStartOp =>
    simp only [HiddenImpliesTTY, applyTMOp, TerminalManager.moveToLineStart,
      TerminalManager.emit]
    split <;> exact h
  | writeOp t => exact h

theorem hiddenImpliesTTY_foldl (ops : List TMOp) (s : TerminalManager)
    (h : HiddenImpliesTTY s) : HiddenImpliesTTY (ops.foldl applyTMOp s) := by
  induction ops generalizing s with
  | nil => exact h
  | cons op rest ih => exact ih _ (hiddenImpliesTTY_step s op h)

theorem foldl_applyTMOp_tty (ops : List TMOp) (s : TerminalManager) :
    (ops.foldl applyTMOp s).tty = s.tty := by
  induction ops generalizing s with
  | nil => rfl
  | cons op rest ih => rw [List.foldl_cons, ih, applyTMOp_tty]

theorem runTMOps_tty (tty : Bool) (ops : List TMOp) : (runTMOps tty ops).tty = tty :=
  foldl_applyTMOp_tty ops _

/-! ## Claim theorems: TerminalManager -/

/-- **C3**: after any prior sequence of `hideCursor`/`showCursor` calls,
`cleanup()` leaves the cursor-hidden flag `false`; `cleanup` is the
show-cursor path invoked unconditionally; and it appends exactly one
show-cursor sequence to the sink exactly when the trace holds an unmatched
hide-cursor sequence (one more hide than show — possible only on a TTY sink),
and nothing otherwise; the trace is always in one of those two states. -/
theorem cleanup_restores_cursor (tty : Bool) (ops : List CursorOp) :
    (TerminalManager.cleanup (runCursorOps tty ops)).cursorHidden = false ∧
    TerminalManager.cleanup (runCursorOps tty ops)
      = TerminalManager.showCursor (runCursorOps tty ops) ∧
    (countHide (runCursorOps tty ops).out = countShow (runCursorOps tty ops).out + 1 →
      (TerminalManager.cleanup (runCursorOps tty ops)).out
        = (runCursorOps tty ops).out ++ [OutItem.showSeq]) ∧
    (countHide (runCursorOps tty ops).out = countShow (runCursorOps tty ops).out →
      (TerminalManager.cleanup (runCursorOps tty ops)).out = (runCursorOps tty ops).out) ∧
    (countHide (runCursorOps tty ops).out = countShow (runCursorOps tty ops).out + 1 ∨
      countHide (runCursorOps tty ops).out = countShow (runCursorOps tty ops).out) := by
  obtain ⟨h1, h2, h3⟩ := cursorInv_run tty ops
  by_cases hc : (runCursorOps tty ops).cursorHidden = true
  · have htty := h2 hc
    have hshow : TerminalManager.cleanup (runCursorOps tty ops)
        = { runCursorOps tty ops with
            out := (runCursorOps tty ops).out ++ [OutItem.showSeq],
            cursorHidden := false } := by
      simp [TerminalManager.cleanup, TerminalManager.showCursor, hc, htty]
    rw [hc] at h3
    simp at h3
    exact ⟨by rw [hshow], rfl, fun _ => by rw [hshow],
      fun hEq => ((by omega : False)).elim, Or.inl h3⟩
  · have hb : (runCursorOps tty ops).cursorHidden = false := by
      simpa using hc
    have hshow : TerminalManager.cleanup (runCursorOps tty ops) = runCursorOps tty ops := by
      simp [TerminalManager.cleanup, TerminalManager.showCursor, hb]
    rw [hb] at h3
    simp at h3
    exact ⟨by rw [hshow, hb], rfl, fun hEq => ((by omega : False)).elim,
      fun _ => by rw [hshow], Or.inr h3⟩

/-- **C4**: from the initial state, a second consecutive `hideCursor()` call
changes nothing; the first emits the hide sequence exactly once on a TTY sink
and nothing on a non-TTY sink; `showCursor` after a hide emits exactly one
show sequence, and a repeated `showCursor` changes nothing. -/
theorem hideCursor_idempotent (tty : Bool) :
    (TerminalManager.hideCursor (TerminalManager.hideCursor (TerminalManager.init tty))
      = TerminalManager.hideCursor (TerminalManager.init tty)) ∧
    ((TerminalManager.hideCursor (TerminalManager.init tty)).out
      = if tty then [OutItem.hideSeq] else []) ∧
    ((TerminalManager.showCursor (TerminalManager.hideCursor (TerminalManager.init tty))).out
      = if tty then [OutItem.hideSeq, OutItem.showSeq] else []) ∧
    (TerminalManager.showCursor (TerminalManager.showCursor
        (TerminalManager.hideCursor (TerminalManager.init tty)))
      = TerminalManager.showCursor (TerminalManager.hideCursor (TerminalManager.init tty))) := by
  cases tty <;> decide

/-- **C5**: on a non-TTY sink every gated operation (`hideCursor`,
`showCursor`, `clearScreen`, `clearLine`, `moveUp`, `moveToLineStart`) leaves
the manager — in particular its sink trace — unchanged, while `write`
forwards its text to the sink unconditionally, on every manager. -/
theorem nonTTY_silent (s : TerminalManager) (t : String) (n : Int)
    (h : s.tty = false) :
    TerminalManager.hideCursor s = s ∧
    TerminalManager.showCursor s = s ∧
    TerminalManager.clearScreen s = s ∧
    TerminalManager.clearLine s = s ∧
    TerminalManager.moveUp n s = s ∧
    TerminalManager.moveToLineStart s = s ∧
    (∀ s2 : TerminalManager, (TerminalManager.write t s2).out = s2.out ++ [OutItem.text t]) := by
  refine ⟨?_, ?_, ?_, ?_, ?_, ?_, fun s2 => rfl⟩ <;>
    simp [TerminalManager.hideCursor, TerminalManager.showCursor,
      TerminalManager.clearScreen, TerminalManager.clearLine, TerminalManager.moveUp,
      TerminalManager.moveToLineStart, h]

theorem nonTTY_silent_witness :
    TerminalManager.hideCursor (TerminalManager.init false) = TerminalManager.init false ∧
    (TerminalManager.write "x" (TerminalManager.init false)).out
      = (TerminalManager.init false).out ++ [OutItem.text "x"] :=
  ⟨(nonTTY_silent (TerminalManager.init false) "x" 1 rfl).1,
    (nonTTY_silent (TerminalManager.init false) "x" 1 rfl).2.2.2.2.2.2
      (TerminalManager.init false)⟩

/-- **C9**: the invariant "cursor hidden implies the sink is a TTY" holds in
the initial state, is preserved by every `TerminalManager` operation (which
also never changes the sink's TTY flag), and hence a manager reached by any
operation sequence from the initial state has its cursor hidden only if the
sink is a TTY. -/
theorem cursorHidden_only_on_tty (tty : Bool) (op : TMOp) (s : TerminalManager)
    (ops : List TMOp) (hinv : s.cursorHidden = true → s.tty = true) :
    ((TerminalManager.init tty).cursorHidden = true → (TerminalManager.init tty).tty = true) ∧
    ((applyTMOp s op).tty = s.tty ∧
      ((applyTMOp s op).cursorHidden = true → (applyTMOp s op).tty = true)) ∧
    ((runTMOps tty ops).cursorHidden = true → tty = true) := by
  refine ⟨by simp [TerminalManager.init], ⟨applyTMOp_tty .., hiddenImpliesTTY_step s op hinv⟩, ?_⟩
  intro h
  have h2 := hiddenImpliesTTY_foldl ops (TerminalManager.init tty)
    (fun hfalse => by simp [TerminalManager.init] at hfalse)
  rw [← runTMOps_tty tty ops]
  exact h2 h

theorem cursorHidden_only_on_tty_witness :
    ((TerminalManager.init true).cursorHidden = true → (TerminalManager.init true).tty = true) ∧
    ((applyTMOp (TerminalManager.init true) TMOp.hideCursorOp).tty = (TerminalManager.init true).tty ∧
      ((applyTMOp (TerminalManager.init true) TMOp.hideCursorOp).cursorHidden = true →
        (applyTMOp (TerminalManager.init true) TMOp.hideCursorOp).tty = true)) ∧
    ((runTMOps true [TMOp.hideCursorOp]).cursorHidden = true → true = true) :=
  cursorHidden_only_on_tty true TMOp.hideCursorOp (TerminalManager.init true)
    [TMOp.hideCursorOp] (fun _ => rfl)

/-! ## Helper lemmas: progress bar -/

theorem progressPercentage_le_100 (value mx : ℚ) : progressPercentage value mx ≤ 100 := by
  unfold progressPercentage
  split
  · exact min_le_left ..
  · norm_num

theorem progressPercentage_nonneg (value mx : ℚ) (h : 0 ≤ value ∨ mx ≤ 0) :
    0 ≤ progressPercentage value mx := by
  unfold progressPercentage
  split
  case isTrue hm =>
    rcases h with hv | hm0
    · exact le_min (by norm_num) (mul_nonneg (div_nonneg hv hm.le) (by norm_num))
    · linarith
  case isFalse => exact le_refl 0

theorem jsRound_nonneg (q : ℚ) (h : 0 ≤ q) : 0 ≤ jsRound q :=
  Int.floor_nonneg.mpr (by linarith)

theorem jsRound_le_of_le_int (q : ℚ) (w : Int) (h : q ≤ (w : ℚ)) : jsRound q ≤ w := by
  unfold jsRound
  calc ⌊q + 1/2⌋ ≤ ⌊(w : ℚ) + 1/2⌋ := Int.floor_le_floor (by linarith)
    _ = w + ⌊(1 : ℚ)/2⌋ := Int.floor_int_add ..
    _ = w := by norm_num

/-! ## Claim theorems: progress bar -/

/-- **C1 counterexample**: `createProgressBar(-50, 100, 10)` does not return a
string — the percentage is `min(100, -50) = -50`, the fill width rounds to
`-5`, and `fillChar.repeat(-5)` throws a `RangeError` (modelled as `none`).
The claim that the function never throws, in particular for negative values,
is false. -/
theorem createProgressBar_throws_on_negative :
    createProgressBar (-50) 100 10 {} = none := by
  unfold createProgressBar
  have hp : progressPercentage (-50) 100 = -50 := by norm_num [progressPercentage]
  rw [hp]
  norm_num [jsRound, jsRepeat]

/-- **C1 amended**: for every non-negative integer width and every options
record, `createProgressBar` returns a plain string and never throws provided
the value is non-negative or the max is non-positive (the genuinely reachable
inputs of a progress display); a negative value with a positive max can make
the computed fill width negative and `String.repeat` throw. -/
theorem createProgressBar_never_throws (value mx : ℚ) (width : Int)
    (opts : ProgressOptions) (hw : 0 ≤ width) (h : 0 ≤ value ∨ mx ≤ 0) :
    (createProgressBar value mx width opts).isSome = true := by
  have h1 := progressPercentage_nonneg value mx h
  have h2 := progressPercentage_le_100 value mx
  have hwq : (0 : ℚ) ≤ (width : ℚ) := by exact_mod_cast hw
  have hf0 : 0 ≤ jsRound (progressPercentage value mx / 100 * (width : ℚ)) :=
    jsRound_nonneg _ (mul_nonneg (div_nonneg h1 (by norm_num)) hwq)
  have hfw : jsRound (progressPercentage value mx / 100 * (width : ℚ)) ≤ width := by
    refine jsRound_le_of_le_int _ _ ?_
    have hq1 : progressPercentage value mx / 100 ≤ 1 :=
      (div_le_one (by norm_num)).mpr h2
    calc progressPercentage value mx / 100 * (width : ℚ)
        ≤ 1 * (width : ℚ) := mul_le_mul_of_nonneg_right hq1 hwq
      _ = (width : ℚ) := one_mul _
  have e1 : jsRepeat opts.fillChar (jsRound (progressPercentage value mx / 100 * (width : ℚ)))
      = some (jsRepeatNat opts.fillChar
          (jsRound (progressPercentage value mx / 100 * (width : ℚ))).toNat) := by
    unfold jsRepeat
    rw [if_neg (not_lt.mpr hf0)]
  have e2 : jsRepeat opts.emptyChar
        (width - jsRound (progressPercentage value mx / 100 * (width : ℚ)))
      = some (jsRepeatNat opts.emptyChar
          (width - jsRound (progressPercentage value mx / 100 * (width : ℚ))).toNat) := by
    unfold jsRepeat
    rw [if_neg (by omega :
      ¬ width - jsRound (progressPercentage value mx / 100 * (width : ℚ)) < 0)]
  simp only [createProgressBar]
  rw [e1, e2]
  simp

theorem createProgressBar_never_throws_witness :
    (createProgressBar 1 2 3 {}).isSome = true :=
  createProgressBar_never_throws 1 2 3 {} (by norm_num) (Or.inl (by norm_num))

/-- The percentage rule exactly as the claim's words state it:
`clamp(value / max * 100, 0, 100)` when `max > 0`, else `0`. -/
def specClampPercentage (value mx : ℚ) : ℚ :=
  if mx > 0 then Min.min 100 (Max.max 0 ((value / mx) * 100)) else 0

/-- **C2 counterexample**: at `value = -50, max = 100` the code's percentage
is `min(100, -50) = -50`, not the claimed `clamp(-50, 0, 100) = 0` — the
source caps only from above and never clamps below `0`. -/
theorem percentage_not_clamped_below :
    progressPercentage (-50) 100 = -50 ∧ specClampPercentage (-50) 100 = 0 ∧
    progressPercentage (-50) 100 ≠ specClampPercentage (-50) 100 := by
  norm_num [progressPercentage, specClampPercentage]

/-- **C2 amended**: the computed percentage equals `min(100, value/max·100)`
when `max > 0` (upper cap only — no clamping below zero) and `0` when
`max ≤ 0`; it agrees with the claimed `clamp` whenever `value ≥ 0`;
consequently `progressBar(150, 100, 10)` renders identically to
`progressBar(100, 100, 10)`, and `progressBar(5, 0, 10)` yields `0.0%` with
no divide-by-zero artifact. -/
theorem progressPercentage_spec (value mx : ℚ) :
    (mx > 0 → progressPercentage value mx = min 100 ((value / mx) * 100)) ∧
    (mx ≤ 0 → progressPercentage value mx = 0) ∧
    (0 ≤ value → progressPercentage value mx = specClampPercentage value mx) ∧
    createProgressBar 150 100 10 {} = createProgressBar 100 100 10 {} ∧
    createProgressBar 5 0 10 {} = some "[░░░░░░░░░░] 0.0%" := by
  refine ⟨?_, ?_, ?_, ?_, ?_⟩
  · intro h
    simp [progressPercentage, if_pos h]
  · intro h
    simp [progressPercentage, if_neg (not_lt.mpr h)]
  · intro hv
    unfold progressPercentage specClampPercentage
    split
    case isTrue hm =>
      rw [max_eq_right (mul_nonneg (div_nonneg hv hm.le) (by norm_num))]
    case isFalse => rfl
  · unfold createProgressBar
    have h1 : progressPercentage 150 100 = 100 := by norm_num [progressPercentage]
    have h2 : progressPercentage 100 100 = 100 := by norm_num [progressPercentage]
    rw [h1, h2]
    norm_num [jsRound, jsRepeat, pickColor, renderBar, toFixed1]
  · unfold createProgressBar
    have hp : progressPercentage 5 0 = 0 := by norm_num [progressPercentage]
    rw [hp]
    norm_num [jsRound, jsRepeat, pickColor, renderBar, toFixed1]
    rfl

theorem progressPercentage_spec_witness :
    progressPercentage 1 2 = min 100 ((1 / 2) * 100) ∧ progressPercentage 5 0 = 0 :=
  ⟨(progressPercentage_spec 1 2).1 (by norm_num),
    (progressPercentage_spec 5 0).2.1 (by norm_num)⟩

/-- The color-tier selection exactly as the claim's words state it, evaluated
high to low, the first supplied tier whose threshold is met winning. -/
def specColorSelection (colors : ProgressColors) (percentage : ℚ) : String :=
  if percentage ≥ 90 ∧ colors.critical.isSome then colors.critical.getD ""
  else if percentage ≥ 80 ∧ colors.high.isSome then colors.high.getD ""
  else if percentage ≥ 50 ∧ colors.medium.isSome then colors.medium.getD ""
  else if colors.low.isSome then colors.low.getD ""
  else ""

/-- **C6**: the color applied by `createProgressBar` is selected exactly as
the claim describes (critical at ≥ 90, else high at ≥ 80, else medium at
≥ 50, else low, else none, skipping unsupplied tiers), and the assembled bar
carries the color-reset sequence after the bar cells exactly when a
(non-empty) color was applied. -/
theorem pickColor_matches_spec (colors : ProgressColors) (p : ℚ)
    (opts : ProgressOptions) (color fills empties : String) :
    pickColor colors p = specColorSelection colors p ∧
    (color ≠ "" → renderBar opts color fills empties
      = opts.leftBracket ++ color ++ fills ++ empties ++ colorReset ++ opts.rightBracket) ∧
    (color = "" → renderBar opts color fills empties
      = opts.leftBracket ++ fills ++ empties ++ opts.rightBracket) := by
  refine ⟨?_, ?_, ?_⟩
  · unfold pickColor specColorSelection
    split_ifs <;> simp_all
  · intro h
    simp [renderBar, h]
  · intro h
    simp [renderBar, h]

theorem pickColor_matches_spec_witness :
    pickColor {} 0 = specColorSelection {} 0 ∧
    renderBar {} "c" "f" "e"
      = ({} : ProgressOptions).leftBracket ++ "c" ++ "f" ++ "e" ++ colorReset
          ++ ({} : ProgressOptions).rightBracket :=
  ⟨(pickColor_matches_spec {} 0 {} "c" "f" "e").1,
    (pickColor_matches_spec {} 0 {} "c" "f" "e").2.1 (by decide)⟩

/-- **C7**: the three example renderings with default options:
`progressBar(0,100,10)`, `progressBar(100,100,10)`, and
`progressBar(50,100,10, showValues)` produce exactly the claimed strings. -/
theorem createProgressBar_examples :
    createProgressBar 0 100 10 {} = some "[░░░░░░░░░░] 0.0%" ∧
    createProgressBar 100 100 10 {} = some "[██████████] 100.0%" ∧
    createProgressBar 50 100 10 { showValues := true } = some "[█████░░░░░] 50.0% (50/100)" := by
  refine ⟨?_, ?_, ?_⟩
  · unfold createProgressBar
    have hp : progressPercentage 0 100 = 0 := by norm_num [progressPercentage]
    rw [hp]
    norm_num [jsRound, jsRepeat, pickColor, renderBar, toFixed1]
    rfl
  · unfold createProgressBar
    have hp : progressPercentage 100 100 = 100 := by norm_num [progressPercentage]
    rw [hp]
    norm_num [jsRound, jsRepeat, pickColor, renderBar, toFixed1]
    rfl
  · unfold createProgressBar
    have hp : progressPercentage 50 100 = 50 := by norm_num [progressPercentage]
    rw [hp]
    norm_num [jsRound, jsRepeat, pickColor, renderBar, toFixed1, jsNumToString]
    rfl

/-! ## Helper lemmas: centering -/

theorem stringWidth_append (a b : String) :
    stringWidth (a ++ b) = stringWidth a + stringWidth b := by
  simp [stringWidth, String.data_append]

theorem stringWidth_space_repeat (n : Nat) : stringWidth (jsRepeatNat " " n) = n := by
  induction n with
  | zero => rfl
  | succ k ih =>
    show stringWidth (" " ++ jsRepeatNat " " k) = k + 1
    rw [stringWidth_append, ih]
    have : stringWidth " " = 1 := by decide
    omega

/-! ## Claim theorems: centering -/

/-- **C8**: if the display width of `text` is at least `width`, `centerText`
returns `text` unchanged; otherwise it pads with spaces — left padding
`floor((width − displayWidth)/2)`, the odd remainder going to the right —
and in particular `centerText("hi", 6)` and `centerText("hi", 7)` produce the
claimed strings. -/
theorem centerText_spec (text : String) (width : Int) :
    ((stringWidth text : Int) ≥ width → centerText text width = text) ∧
    ((stringWidth text : Int) < width →
      centerText text width
        = jsRepeatNat " " ((width - (stringWidth text : Int)) / 2).toNat ++ text
            ++ jsRepeatNat " " (width - (stringWidth text : Int)
                - (width - (stringWidth text : Int)) / 2).toNat) ∧
    centerText "hi" 6 = "  hi  " ∧
    centerText "hi" 7 = "  hi   " := by
  refine ⟨?_, ?_, by decide, by decide⟩
  · intro h
    simp only [centerText]
    rw [if_pos h]
  · intro h
    simp only [centerText]
    rw [if_neg (not_le.mpr h)]

theorem centerText_spec_witness :
    centerText "hi" 2 = "hi" ∧
    centerText "hi" 6
      = jsRepeatNat " " ((6 - (stringWidth "hi" : Int)) / 2).toNat ++ "hi"
          ++ jsRepeatNat " " (6 - (stringWidth "hi" : Int)
              - (6 - (stringWidth "hi" : Int)) / 2).toNat :=
  ⟨(centerText_spec "hi" 2).1 (by decide),
    (centerText_spec "hi" 6).2.1 (by decide)⟩

/-- **C10**: when the display width of `text` is strictly less than a
positive integer `width`, the centered result occupies exactly `width`
terminal columns — the two space pads sum to `width − displayWidth`. -/
theorem centerText_width_exact (text : String) (width : Int)
    (hw : 0 < width) (h : (stringWidth text : Int) < width) :
    (stringWidth (centerText text width) : Int) = width := by
  simp only [centerText]
  rw [if_neg (not_le.mpr h)]
  rw [stringWidth_append, stringWidth_append,
    stringWidth_space_repeat, stringWidth_space_repeat]
  omega

theorem centerText_width_exact_witness :
    (stringWidth (centerText "hi" 7) : Int) = 7 :=
  centerText_width_exact "hi" 7 (by decide) (by decide)

theorem cleanup_restores_cursor_witness :
    (TerminalManager.cleanup (runCursorOps true [CursorOp.hideOp])).out
      = (runCursorOps true [CursorOp.hideOp]).out ++ [OutItem.showSeq] :=
  (cleanup_restores_cursor true [CursorOp.hideOp]).2.2.1 (by decide)
